import Mathlib

set_option maxHeartbeats 1000000

namespace StoryGen

/- Shallow embedding of yogisany/story-ai-generator.

   Sources embedded here:
   - src/src/lib/gemini.ts        (generateStory, generateIllustration, generateNarration)
   - src/unnamed/part_001         (BookPreview: exportToPDF)
   - src/unnamed/part_003         (zustand store: updatePage and the store state;
                                   server.ts: the sqlite-backed API routes)
   - src/server.ts                (API routes over better-sqlite3)
   - src/src/components/StoryWizard.tsx (wizard form state and handleGenerate)

   External effects (the generative API, Math.random, DOM/canvas rendering, the
   sqlite engine) are modelled by explicit inputs: an attempt stream for API
   calls, a rational-valued random stream, an uninterpreted html-to-image
   renderer, and lists of rows for the database tables. -/

/- String containment, modelling the JavaScript method String.prototype.includes
   used at gemini.ts line 98. -/

/-- Decides whether the first list is a leading segment of the second. -/
def startsWithL : List Char → List Char → Bool
  | [], _ => true
  | _ :: _, [] => false
  | a :: as, b :: bs => a == b && startsWithL as bs

/-- Decides whether pat occurs contiguously inside the second list. -/
def hasSub (pat : List Char) : List Char → Bool
  | [] => pat.isEmpty
  | c :: cs => startsWithL pat (c :: cs) || hasSub pat cs

/- gemini.ts: the error shape inspected by the catch handler.  In the source the
   error is an arbitrary JavaScript value read through optional chaining, so both
   fields may be absent. -/

/-- Error value thrown by a generative-API call: message and status as read by
the optional chains err?.message and err?.status in gemini.ts line 98. -/
structure GenError where
  message : Option String
  status : Option String
deriving DecidableEq

/-- Rate-limit test of gemini.ts line 98:
isRateLimit = err?.message?.includes("429") || err?.status === "RESOURCE_EXHAUSTED". -/
def isRateLimit (e : GenError) : Bool :=
  (match e.message with
   | some m => hasSub "429".data m.data
   | none => false)
  || e.status == some "RESOURCE_EXHAUSTED"

/-- One part of a model response; inlineData carries the base64 payload when
present (gemini.ts lines 91-95 and 126). -/
structure InlinePart where
  inlineData : Option String
deriving DecidableEq

/-- Image-model response, reduced to response.candidates?.[0]?.content?.parts || []
(gemini.ts line 91). -/
structure GenResponse where
  parts : List InlinePart
deriving DecidableEq

/-- Inline data of the first part that carries inline data, as found by the for
loop of gemini.ts lines 91-95. -/
def firstInlineData : List InlinePart → Option String
  | [] => none
  | p :: ps =>
    match p.inlineData with
    | some d => some d
    | none => firstInlineData ps

/-- Value returned from the try body of generateIllustration (gemini.ts lines
91-96): the data URL for the first inline-data part, or null. -/
def extractImage (r : GenResponse) : Option String :=
  (firstInlineData r.parts).map (fun d => "data:image/png;base64," ++ d)

/-- Observable outcome of one run of generateIllustration: the value returned or
the error rethrown, the sleep durations in milliseconds (rational, since the
jitter comes from Math.random), and how many API calls were made. -/
structure IllRun where
  result : Except GenError (Option String)
  waits : List ℚ
  attempts : Nat

/-- Loop body of generateIllustration (gemini.ts lines 77-107).  attempt i is
the outcome of the i-th call to ai.models.generateContent; rand i is the value
of Math.random() before the i-th retry; fuel counts the loop iterations still
allowed (retries + 1 - i at entry).  On a rate-limit error with i < retries the
loop sleeps Math.pow(2, i) * 2000 + Math.random() * 1000 ms and continues;
any other error is rethrown; fuel exhaustion is the loop exit of line 108. -/
def genIllGo (attempt : Nat → Except GenError GenResponse) (rand : Nat → ℚ)
    (retries : Nat) : Nat → Nat → IllRun
  | _, 0 => { result := Except.ok none, waits := [], attempts := 0 }
  | i, fuel + 1 =>
    match attempt i with
    | Except.ok r => { result := Except.ok (extractImage r), waits := [], attempts := 1 }
    | Except.error e =>
      if isRateLimit e = true ∧ i < retries then
        let rest := genIllGo attempt rand retries (i + 1) fuel
        { result := rest.result
          waits := ((2 : ℚ) ^ i * 2000 + rand i * 1000) :: rest.waits
          attempts := rest.attempts + 1 }
      else
        { result := Except.error e, waits := [], attempts := 1 }

/-- generateIllustration (gemini.ts lines 73-109): the for loop runs i from 0
while i <= retries, so at most retries + 1 iterations. -/
def generateIllustration (attempt : Nat → Except GenError GenResponse)
    (rand : Nat → ℚ) (retries : Nat) : IllRun :=
  genIllGo attempt rand retries 0 (retries + 1)

/-- Text-model response of generateStory: response.text may be absent
(gemini.ts line 68). -/
structure StoryResponse where
  text : Option String
deriving DecidableEq

/-- Outcome of a single-call API wrapper: the settled value and the number of
calls made to ai.models.generateContent. -/
structure ApiRun (α : Type) where
  result : Except GenError α
  calls : Nat

/-- generateStory (gemini.ts lines 12-69): one generateContent call; a rejection
propagates; on success the function returns JSON.parse(response.text || "\x7b\x7d").
The JSON parse itself is not modelled: the run carries the raw string handed to
it. -/
def generateStory (attempt : Nat → Except GenError StoryResponse) : ApiRun String :=
  match attempt 0 with
  | Except.error e => { result := Except.error e, calls := 1 }
  | Except.ok r => { result := Except.ok (r.text.getD "\x7b\x7d"), calls := 1 }

/-- Speech-model response of generateNarration, reduced to the parts list of the
first candidate content (gemini.ts line 126). -/
structure NarrResponse where
  parts : List InlinePart
deriving DecidableEq

/-- Extraction of gemini.ts lines 126-130: base64Audio is
response.candidates?.[0]?.content?.parts?.[0]?.inlineData?.data, that is the
inline data of the first part only. -/
def extractAudio (r : NarrResponse) : Option String :=
  ((r.parts.head?).bind InlinePart.inlineData).map
    (fun d => "data:audio/mp3;base64," ++ d)

/-- generateNarration (gemini.ts lines 111-131): one generateContent call; a
rejection propagates; on success the data URL for the first part, or null. -/
def generateNarration (attempt : Nat → Except GenError NarrResponse) :
    ApiRun (Option String) :=
  match attempt 0 with
  | Except.error e => { result := Except.error e, calls := 1 }
  | Except.ok r => { result := Except.ok (extractAudio r), calls := 1 }

/- Zustand store of src/unnamed/part_003 (useStore): record shapes and the
updatePage action (lines 587-595). -/

/-- Page record of the store (part_003 lines 455-462). -/
structure Page where
  id : String
  pageNumber : Int
  content : String
  illustrationUrl : Option String
  illustrationPrompt : String
  narrationUrl : Option String
deriving DecidableEq

/-- Book record of the store (part_003 lines 464-474). -/
structure Book where
  id : String
  title : String
  theme : String
  targetAge : String
  moral : String
  coverUrl : Option String
  coverPrompt : String
  characterDescription : String
  pages : List Page
deriving DecidableEq

/-- Role of a user record (part_003 line 482). -/
inductive UserRole where
  | admin
  | user
deriving DecidableEq

/-- User record of the store (part_003 lines 476-484). -/
structure User where
  id : String
  name : String
  email : String
  phoneNumber : Option String
  avatarUrl : Option String
  role : UserRole
  credits : Int
deriving DecidableEq

/-- Brand settings record of the store (part_003 lines 486-490). -/
structure BrandSettings where
  name : String
  tagline : String
  logoUrl : String
deriving DecidableEq

/-- Store state of useStore (part_003 lines 492-498). -/
structure StoryState where
  user : Option User
  brandSettings : BrandSettings
  currentBook : Option Book
  myBooks : List Book
  isLoading : Bool
  error : Option String
deriving DecidableEq

/-- Field updates passed to updatePage; each field may be present or absent,
modelling the object spread of a possibly-incomplete Page record. -/
structure PageUpdate where
  id : Option String
  pageNumber : Option Int
  content : Option String
  illustrationUrl : Option (Option String)
  illustrationPrompt : Option String
  narrationUrl : Option (Option String)
deriving DecidableEq

/-- Object spread of part_003 line 590: fields present in the update replace
those of p, the rest keep the value of p. -/
def applyUpdate (p : Page) (u : PageUpdate) : Page :=
  { id := u.id.getD p.id
    pageNumber := u.pageNumber.getD p.pageNumber
    content := u.content.getD p.content
    illustrationUrl := u.illustrationUrl.getD p.illustrationUrl
    illustrationPrompt := u.illustrationPrompt.getD p.illustrationPrompt
    narrationUrl := u.narrationUrl.getD p.narrationUrl }

/-- updatePage of the store (part_003 lines 587-595): when no current book is
set the state is returned unchanged; otherwise every page whose id equals
pageId receives the updates, and zustand set merges the returned object into
the state, leaving every other field as it was. -/
def updatePage (pageId : String) (u : PageUpdate) (s : StoryState) : StoryState :=
  match s.currentBook with
  | none => s
  | some book =>
    { s with
      currentBook := some
        { book with
          pages := book.pages.map (fun p => if p.id = pageId then applyUpdate p u else p) } }

/- StoryWizard.tsx: form state and submission. -/

/-- Wizard form state (StoryWizard.tsx lines 10-17). -/
structure WizardFormData where
  theme : String
  characterName : String
  age : String
  moral : String
  language : String
  pages : Nat
deriving DecidableEq

/-- Initial form state of the wizard (StoryWizard.tsx lines 10-17). -/
def initialFormData : WizardFormData :=
  { theme := "", characterName := "", age := "3-5", moral := ""
    language := "Indonesia", pages := 8 }

/-- Parameter record taken by generateStory (gemini.ts lines 12-19). -/
structure StoryParams where
  theme : String
  characterName : String
  age : String
  moral : String
  pages : Nat
  language : String
deriving DecidableEq

/-- Argument built by handleGenerate (StoryWizard.tsx lines 28-31): the spread
of formData with pages set to formData.pages. -/
def handleGenerateParams (f : WizardFormData) : StoryParams :=
  { theme := f.theme, characterName := f.characterName, age := f.age
    moral := f.moral, pages := f.pages, language := f.language }

/-- Form-state mutation events of the wizard: each onChange handler replaces
exactly one field (StoryWizard.tsx lines 102, 116, 152, 173, 214, 231). -/
inductive WizardEvent where
  | setTheme (s : String)
  | setCharacterName (s : String)
  | setAge (s : String)
  | setMoral (s : String)
  | setLanguage (s : String)
  | setPages (n : Nat)

/-- Effect of one onChange handler on the form state. -/
def applyEvent (f : WizardFormData) : WizardEvent → WizardFormData
  | WizardEvent.setTheme s => { f with theme := s }
  | WizardEvent.setCharacterName s => { f with characterName := s }
  | WizardEvent.setAge s => { f with age := s }
  | WizardEvent.setMoral s => { f with moral := s }
  | WizardEvent.setLanguage s => { f with language := s }
  | WizardEvent.setPages n => { f with pages := n }

/-- Environment guarantee of the page-count input (StoryWizard.tsx lines
224-232): a range input with min 5, max 15, step 1 only ever reports values in
that interval, and no other event touches pages. -/
def eventInRange : WizardEvent → Bool
  | WizardEvent.setPages n => decide (5 ≤ n) && decide (n ≤ 15)
  | _ => true

/- exportToPDF of BookPreview (src/unnamed/part_001 lines 98-196).  The jsPDF
document is a list of pages, each page the list of images placed on it; a new
document starts with one empty page.  html2canvas plus toDataURL is an
uninterpreted function render from the html string to the image placed on the
page. -/

/-- jsPDF document state: one entry per page, holding the images added to it. -/
abbrev PdfDoc := List (List String)

/-- new jsPDF(...) (part_001 lines 107-111): a document with a single empty
page. -/
def newPdf : PdfDoc := [[]]

/-- doc.addPage() (part_001 line 169): appends an empty page after the last. -/
def addPage (d : PdfDoc) : PdfDoc := d ++ [[]]

/-- doc.addImage(img, ...) (part_001 lines 164 and 185): places img on the
current, that is last, page. -/
def addImage (img : String) : PdfDoc → PdfDoc
  | [] => []
  | page :: rest =>
    match rest with
    | [] => [page ++ [img]]
    | _ :: _ => page :: addImage img rest

/-- Image markup of the cover (part_001 line 157, interpolated branch). -/
def coverImgTag (u : String) : String :=
  "<img src=\"" ++ u ++
    "\" style=\"width: 80%; border-radius: 20px; margin-bottom: 30px; border: 8px solid rgba(255,255,255,0.2);\" />"

/-- Opening of the cover markup, up to the interpolated img slot (part_001
lines 155-156). -/
def coverHead : String :=
  "\n        <div style=\"width: 100%; text-align: center; background: linear-gradient(to bottom right, #6366f1, #9333ea); color: white; padding: 60px; border-radius: 20px; display: flex; flex-direction: column; align-items: center; justify-content: center; height: 100%;\">\n          "

/-- Cover markup between the img slot and the interpolated title (part_001
line 158). -/
def coverMid1 : String :=
  "\n          <h1 style=\"font-size: 48px; font-weight: 900; margin-bottom: 20px; font-family: sans-serif;\">"

/-- Cover markup between the title and the interpolated target age (part_001
lines 158-159). -/
def coverMid2 : String :=
  "</h1>\n          <div style=\"font-size: 18px; font-weight: bold; text-transform: uppercase; font-family: sans-serif;\">A Story for "

/-- Closing of the cover markup (part_001 lines 159-161). -/
def coverTail : String :=
  " Years Old</div>\n        </div>\n      "

/-- Img slot of the cover (part_001 line 157): the ternary on
currentBook.coverUrl renders the img only for a truthy, hence non-empty,
url. -/
def coverImgPart (b : Book) : String :=
  match b.coverUrl with
  | some u => if u.isEmpty then "" else coverImgTag u
  | none => ""

/-- Cover markup coverHtml (part_001 lines 155-161), the template literal with
its three interpolations. -/
def coverHtml (b : Book) : String :=
  coverHead ++ coverImgPart b ++ coverMid1 ++ b.title ++ coverMid2 ++ b.targetAge ++ coverTail

/-- Image markup of a story page (part_001 line 174, truthy branch). -/
def pageImgTag (u : String) : String :=
  "<img src=\"" ++ u ++
    "\" style=\"width: 100%; height: 100%; object-fit: cover; border-radius: 20px;\" />"

/-- Placeholder markup of a story page without illustration (part_001 line 174,
falsy branch). -/
def pagePlaceholder : String :=
  "<div style=\"width: 100%; height: 100%; background: #f3f4f6;\"></div>"

/-- Illustration slot of a story page: the img for a truthy url, the grey
placeholder otherwise (part_001 line 174). -/
def pageIllustrationHtml (p : Page) : String :=
  match p.illustrationUrl with
  | some u => if u.isEmpty then pagePlaceholder else pageImgTag u
  | none => pagePlaceholder

/-- Opening of the story-page markup, up to the illustration slot (part_001
lines 171-173). -/
def pageHead : String :=
  "\n          <div style=\"width: 100%; display: flex; flex-direction: column; gap: 30px; align-items: center;\">\n            <div style=\"width: 100%; aspect-ratio: 1/1; overflow: hidden; border-radius: 20px;\">\n              "

/-- Story-page markup between the illustration slot and the interpolated page
label (part_001 lines 175-177). -/
def pageMid1 : String :=
  "\n            </div>\n            <div style=\"padding: 20px; text-align: center;\">\n              <div style=\"color: #6366f1; font-weight: bold; margin-bottom: 15px; text-transform: uppercase; font-family: sans-serif;\">Page "

/-- Story-page markup between the page label and the interpolated content
(part_001 lines 177-178). -/
def pageMid2 : String :=
  "</div>\n              <p style=\"font-size: 24px; line-height: 1.6; color: #1f2937; font-family: serif;\">"

/-- Closing of the story-page markup (part_001 lines 178-181). -/
def pageTail : String :=
  "</p>\n            </div>\n          </div>\n        "

/-- Story-page markup pageHtml (part_001 lines 171-181), for the page at index
i of the pages array; the label prints i + 1. -/
def pageHtml (p : Page) (i : Nat) : String :=
  pageHead ++ pageIllustrationHtml p ++ pageMid1 ++ toString (i + 1) ++ pageMid2
    ++ p.content ++ pageTail

/-- Loop of part_001 lines 167-186: for each remaining story page, add a pdf
page and place the rendered page image on it; i is the index of the next
page. -/
def addStoryPages (render : String → String) : PdfDoc → Nat → List Page → PdfDoc
  | doc, _, [] => doc
  | doc, i, p :: ps =>
    addStoryPages render (addImage (render (pageHtml p i)) (addPage doc)) (i + 1) ps

/-- exportToPDF (part_001 lines 98-196): render the cover onto the initial pdf
page, then one appended page per story page, in array order. -/
def exportToPDF (render : String → String) (b : Book) : PdfDoc :=
  addStoryPages render (addImage (render (coverHtml b)) newPdf) 0 b.pages

/-- Contiguous-substring relation on strings, used to state what a rendered
page contains. -/
def substrOf (t s : String) : Prop :=
  ∃ l r, s.data = l ++ t.data ++ r

/- server.ts: sqlite-backed API routes.  A table is a list of rows; SELECT with
WHERE and ORDER BY is filter followed by a sort that is arbitrary on ties,
modelled by mergeSort with the comparison of the ORDER BY clause. -/

/-- Row of the pages table (server.ts lines 55-63). -/
structure PageRow where
  id : String
  bookId : String
  pageNumber : Int
  content : Option String
  illustrationUrl : Option String
  narrationUrl : Option String
deriving DecidableEq

/-- Row of the books table (server.ts lines 43-53); createdAt is the insertion
timestamp. -/
structure BookRow where
  id : String
  userId : String
  title : Option String
  theme : Option String
  targetAge : Option String
  moral : Option String
  coverUrl : Option String
  createdAt : Nat
deriving DecidableEq

/-- GET /api/books/:bookId/pages (server.ts lines 181-188):
SELECT * FROM pages WHERE bookId = ? ORDER BY pageNumber ASC. -/
def getBookPages (dbPages : List PageRow) (bookId : String) : List PageRow :=
  (dbPages.filter (fun p => p.bookId == bookId)).mergeSort
    (fun a b => decide (a.pageNumber ≤ b.pageNumber))

/-- GET /api/books/:userId (server.ts lines 161-168):
SELECT * FROM books WHERE userId = ? ORDER BY createdAt DESC. -/
def getUserBooks (dbBooks : List BookRow) (userId : String) : List BookRow :=
  (dbBooks.filter (fun b => b.userId == userId)).mergeSort
    (fun a b => decide (b.createdAt ≤ a.createdAt))

/-- Row of the users table (server.ts lines 36-41); credits defaults to 10 on
insert. -/
structure UserRow where
  id : String
  email : Option String
  name : Option String
  credits : Int
deriving DecidableEq

/-- Uniqueness conflict that makes INSERT OR IGNORE skip the row: an existing
row with the same primary-key id, or with the same non-null email (server.ts
lines 36-41 and 140). -/
def userConflict (db : List UserRow) (id : String) (email : Option String) : Bool :=
  db.any (fun u => u.id == id)
  || (match email with
      | some e => db.any (fun u => u.email == some e)
      | none => false)

/-- INSERT OR IGNORE INTO users (id, email, name) VALUES (?, ?, ?) (server.ts
line 140): on conflict the table is unchanged, otherwise the row is appended
with the default 10 credits. -/
def insertOrIgnoreUser (db : List UserRow) (id : String) (email name : Option String) :
    List UserRow :=
  if userConflict db id email then db
  else db ++ [{ id := id, email := email, name := name, credits := 10 }]

/-- POST /api/users (server.ts lines 137-147): run the INSERT OR IGNORE, then
respond with SELECT * FROM users WHERE id = ? on the updated table. -/
def postUsers (db : List UserRow) (id : String) (email name : Option String) :
    List UserRow × Option UserRow :=
  let db1 := insertOrIgnoreUser db id email name
  (db1, db1.find? (fun u => u.id == id))


theorem genIllGo_ok (attempt : Nat → Except GenError GenResponse) (rand : Nat → ℚ)
    (retries i fuel : Nat) (r : GenResponse) (hok : attempt i = Except.ok r) :
    genIllGo attempt rand retries i (fuel + 1) =
      { result := Except.ok (extractImage r), waits := [], attempts := 1 } := by
  simp [genIllGo, hok]

theorem genIllGo_retry (attempt : Nat → Except GenError GenResponse) (rand : Nat → ℚ)
    (retries i fuel : Nat) (e : GenError) (he : attempt i = Except.error e)
    (h1 : isRateLimit e = true) (h2 : i < retries) :
    genIllGo attempt rand retries i (fuel + 1) =
      { result := (genIllGo attempt rand retries (i + 1) fuel).result
        waits := ((2 : ℚ) ^ i * 2000 + rand i * 1000) ::
          (genIllGo attempt rand retries (i + 1) fuel).waits
        attempts := (genIllGo attempt rand retries (i + 1) fuel).attempts + 1 } := by
  simp [genIllGo, he, h1, h2]

theorem genIllGo_throw (attempt : Nat → Except GenError GenResponse) (rand : Nat → ℚ)
    (retries i fuel : Nat) (e : GenError) (he : attempt i = Except.error e)
    (h : ¬(isRateLimit e = true ∧ i < retries)) :
    genIllGo attempt rand retries i (fuel + 1) =
      { result := Except.error e, waits := [], attempts := 1 } := by
  simp only [genIllGo, he]
  rw [if_neg h]

theorem genIllGo_attempts_le (attempt : Nat → Except GenError GenResponse)
    (rand : Nat → ℚ) (retries : Nat) :
    ∀ fuel i, (genIllGo attempt rand retries i fuel).attempts ≤ fuel := by
  intro fuel
  induction fuel with
  | zero => intro i; simp [genIllGo]
  | succ n ih =>
    intro i
    cases he : attempt i with
    | ok r => rw [genIllGo_ok attempt rand retries i n r he]; simp only; omega
    | error e =>
      by_cases h : isRateLimit e = true ∧ i < retries
      · rw [genIllGo_retry attempt rand retries i n e he h.1 h.2]
        have := ih (i + 1)
        simp only
        omega
      · rw [genIllGo_throw attempt rand retries i n e he h]
        simp only
        omega

theorem genIllGo_attempts_pos (attempt : Nat → Except GenError GenResponse)
    (rand : Nat → ℚ) (retries : Nat) :
    ∀ fuel i, 1 ≤ fuel → 1 ≤ (genIllGo attempt rand retries i fuel).attempts := by
  intro fuel i hf
  cases fuel with
  | zero => omega
  | succ n =>
    cases he : attempt i with
    | ok r => rw [genIllGo_ok attempt rand retries i n r he]
    | error e =>
      by_cases h : isRateLimit e = true ∧ i < retries
      · rw [genIllGo_retry attempt rand retries i n e he h.1 h.2]; simp only; omega
      · rw [genIllGo_throw attempt rand retries i n e he h]

theorem genIllGo_waits_eq (attempt : Nat → Except GenError GenResponse)
    (rand : Nat → ℚ) (retries : Nat) :
    ∀ fuel i t w, (genIllGo attempt rand retries i fuel).waits.get? t = some w →
      w = (2 : ℚ) ^ (i + t) * 2000 + rand (i + t) * 1000 := by
  intro fuel
  induction fuel with
  | zero => intro i t w h; simp [genIllGo] at h
  | succ n ih =>
    intro i t w h
    cases he : attempt i with
    | ok r => rw [genIllGo_ok attempt rand retries i n r he] at h; simp at h
    | error e =>
      by_cases hc : isRateLimit e = true ∧ i < retries
      · rw [genIllGo_retry attempt rand retries i n e he hc.1 hc.2] at h
        cases t with
        | zero =>
          simp only [List.get?] at h
          cases h
          simp
        | succ t' =>
          simp only [List.get?] at h
          have hw := ih (i + 1) t' w h
          have harith : i + 1 + t' = i + (t' + 1) := by omega
          rw [harith] at hw
          exact hw
      · rw [genIllGo_throw attempt rand retries i n e he hc] at h
        simp at h

theorem genIllGo_after_run (attempt : Nat → Except GenError GenResponse)
    (rand : Nat → ℚ) (retries : Nat) :
    ∀ k i fuel,
      (∀ j, i ≤ j → j < i + k →
        ∃ ej, attempt j = Except.error ej ∧ isRateLimit ej = true ∧ j < retries) →
      (genIllGo attempt rand retries i (k + fuel)).result
          = (genIllGo attempt rand retries (i + k) fuel).result
        ∧ (genIllGo attempt rand retries i (k + fuel)).attempts
          = k + (genIllGo attempt rand retries (i + k) fuel).attempts := by
  intro k
  induction k with
  | zero => intro i fuel _; simp
  | succ m ih =>
    intro i fuel hpre
    obtain ⟨ei, hei, hrl, hir⟩ := hpre i (le_refl i) (by omega)
    have hstep := genIllGo_retry attempt rand retries i (m + fuel) ei hei hrl hir
    have hsz : m + 1 + fuel = (m + fuel) + 1 := by omega
    rw [hsz, hstep]
    have hrest := ih (i + 1) fuel (by
      intro j hj1 hj2
      exact hpre j (by omega) (by omega))
    have hidx : i + 1 + m = i + (m + 1) := by omega
    rw [hidx] at hrest
    simp only
    exact ⟨hrest.1, by omega⟩

/-- C1: generateIllustration retries only on rate-limit failures.  If the first
k attempts all fail with rate-limit errors and attempt k (counted from 0, with
k within the allowed budget) throws e, then: when e is a rate-limit error and
fewer than retries retries have been used, a further attempt is made (at least
k + 2 calls happen in total); when e is not a rate-limit error, or the retry
budget is exhausted, e is rethrown to the caller and no further call is made
(exactly k + 1 calls happen and the run settles with error e). -/
theorem generateIllustration_retries_only_rate_limit
    (attempt : Nat → Except GenError GenResponse) (rand : Nat → ℚ)
    (retries k : Nat) (e : GenError)
    (hk : k ≤ retries)
    (hpre : ∀ j, j < k → ∃ ej, attempt j = Except.error ej ∧ isRateLimit ej = true)
    (hke : attempt k = Except.error e) :
    (isRateLimit e = true → k < retries →
      k + 2 ≤ (generateIllustration attempt rand retries).attempts)
    ∧ ((isRateLimit e = false ∨ k = retries) →
      (generateIllustration attempt rand retries).result = Except.error e
      ∧ (generateIllustration attempt rand retries).attempts = k + 1) := by
  obtain ⟨m, hm⟩ : ∃ m, retries + 1 = k + (m + 1) := ⟨retries - k, by omega⟩
  have hrun := genIllGo_after_run attempt rand retries k 0 (m + 1) (by
    intro j hj0 hjk
    obtain ⟨ej, h1, h2⟩ := hpre j (by omega)
    exact ⟨ej, h1, h2, by omega⟩)
  rw [Nat.zero_add] at hrun
  unfold generateIllustration
  rw [hm]
  constructor
  · intro hrl hlt
    obtain ⟨m2, hm2⟩ : ∃ m2, m = m2 + 1 := ⟨m - 1, by omega⟩
    subst hm2
    have hstep := genIllGo_retry attempt rand retries k (m2 + 1) e hke hrl hlt
    have hpos := genIllGo_attempts_pos attempt rand retries (m2 + 1) (k + 1) (by omega)
    rw [hrun.2, hstep]
    simp only
    omega
  · intro hor
    have hcond : ¬(isRateLimit e = true ∧ k < retries) := by
      rcases hor with h | h
      · rintro ⟨hc, -⟩
        rw [h] at hc
        cases hc
      · rintro ⟨-, hc⟩
        omega
    have hstep := genIllGo_throw attempt rand retries k m e hke hcond
    exact ⟨by rw [hrun.1, hstep], by rw [hrun.2, hstep]⟩

/-- C2: the retry delay of generateIllustration is exponential.  Whatever the
attempt outcomes, the wait before the retry that follows the t-th failed
attempt (t counted from 0) is 2 to the t times 2000 milliseconds plus a jitter
in the half-open interval from 0 to 1000, provided each Math.random value lies
in the half-open unit interval; and the total number of attempts never exceeds
retries + 1, hence 4 with the default retries = 3. -/
theorem generateIllustration_backoff
    (attempt : Nat → Except GenError GenResponse) (rand : Nat → ℚ) (retries : Nat)
    (hrand : ∀ i, 0 ≤ rand i ∧ rand i < 1) :
    (∀ t w, (generateIllustration attempt rand retries).waits.get? t = some w →
      ∃ j, 0 ≤ j ∧ j < 1000 ∧ w = (2 : ℚ) ^ t * 2000 + j)
    ∧ (generateIllustration attempt rand retries).attempts ≤ retries + 1
    ∧ (generateIllustration attempt rand 3).attempts ≤ 4 := by
  refine ⟨?_, ?_, ?_⟩
  · intro t w h
    have hw := genIllGo_waits_eq attempt rand retries (retries + 1) 0 t w h
    rw [Nat.zero_add] at hw
    refine ⟨rand t * 1000, ?_, ?_, hw⟩
    · exact mul_nonneg (hrand t).1 (by norm_num)
    · have h1 := (hrand t).2
      have := mul_lt_mul_of_pos_right h1 (show (0 : ℚ) < 1000 by norm_num)
      linarith
  · exact genIllGo_attempts_le attempt rand retries (retries + 1) 0
  · exact genIllGo_attempts_le attempt rand 3 4 0

/- Concrete data shared by the witnesses of the retry-loop theorems. -/

/-- Sample rate-limit error, message mentioning 429. -/
def illErr429 : GenError := { message := some "429 Too Many Requests", status := none }

/-- Sample non-rate-limit error. -/
def illErr500 : GenError := { message := some "internal failure", status := none }

/-- Sample attempt stream: a rate-limit failure, then a plain failure. -/
def illAttemptW : Nat → Except GenError GenResponse :=
  fun j => if j = 0 then Except.error illErr429 else Except.error illErr500

/-- Sample random stream with value 0. -/
def illRandW : Nat → ℚ := fun _ => 0

theorem generateIllustration_retries_only_rate_limit_witness :
    (generateIllustration illAttemptW illRandW 3).result = Except.error illErr500
    ∧ (generateIllustration illAttemptW illRandW 3).attempts = 1 + 1 :=
  (generateIllustration_retries_only_rate_limit illAttemptW illRandW 3 1 illErr500
    (by decide)
    (fun j hj => by
      have hj0 : j = 0 := by omega
      subst hj0
      exact ⟨illErr429, rfl, by decide⟩)
    rfl).2 (Or.inl (by decide))

theorem generateIllustration_backoff_witness :
    (generateIllustration illAttemptW illRandW 3).attempts ≤ 3 + 1 :=
  (generateIllustration_backoff illAttemptW illRandW 3 (fun i => ⟨by simp [illRandW], by simp [illRandW]⟩)).2.1

theorem firstInlineData_none (l : List InlinePart)
    (h : ∀ p ∈ l, p.inlineData = none) : firstInlineData l = none := by
  induction l with
  | nil => rfl
  | cons p ps ih =>
    simp only [firstInlineData]
    rw [h p (by simp)]
    exact ih (fun q hq => h q (by simp [hq]))

/-- C6: every non-null value returned by generateIllustration is the png data
URL for the inline data of the first candidate part carrying inline data, and
every non-null value returned by generateNarration is an mp3 data URL; with no
inline-data part in the response, each function returns null.  The successful
run of each function settles with exactly the extracted value. -/
theorem media_data_urls (rimg : GenResponse) (raud : NarrResponse) :
    (∀ s, extractImage rimg = some s →
      ∃ d, firstInlineData rimg.parts = some d ∧ s = "data:image/png;base64," ++ d)
    ∧ ((∀ p ∈ rimg.parts, p.inlineData = none) → extractImage rimg = none)
    ∧ (∀ attempt rand retries, attempt 0 = Except.ok rimg →
      (generateIllustration attempt rand retries).result = Except.ok (extractImage rimg))
    ∧ (∀ s, extractAudio raud = some s →
      ∃ d, (raud.parts.head?).bind InlinePart.inlineData = some d
        ∧ s = "data:audio/mp3;base64," ++ d)
    ∧ ((∀ p ∈ raud.parts, p.inlineData = none) → extractAudio raud = none)
    ∧ (∀ attempt, attempt 0 = Except.ok raud →
      (generateNarration attempt).result = Except.ok (extractAudio raud)) := by
  refine ⟨?_, ?_, ?_, ?_, ?_, ?_⟩
  · intro s hs
    unfold extractImage at hs
    cases hd : firstInlineData rimg.parts with
    | none => rw [hd] at hs; simp at hs
    | some d =>
      rw [hd] at hs
      simp only [Option.map_some'] at hs
      exact ⟨d, rfl, (Option.some_inj.mp hs).symm⟩
  · intro h
    unfold extractImage
    rw [firstInlineData_none rimg.parts h]
    rfl
  · intro attempt rand retries h
    unfold generateIllustration
    rw [genIllGo_ok attempt rand retries 0 retries rimg h]
  · intro s hs
    unfold extractAudio at hs
    cases hd : (raud.parts.head?).bind InlinePart.inlineData with
    | none => rw [hd] at hs; simp at hs
    | some d =>
      rw [hd] at hs
      simp only [Option.map_some'] at hs
      exact ⟨d, rfl, (Option.some_inj.mp hs).symm⟩
  · intro h
    unfold extractAudio
    cases hp : raud.parts with
    | nil => rfl
    | cons p ps =>
      simp only [List.head?, Option.some_bind]
      rw [h p (by simp [hp])]
      rfl
  · intro attempt h
    simp [generateNarration, h]

/-- Sample image response whose only part has no inline data. -/
def imgRespNoneW : GenResponse := { parts := [{ inlineData := none }] }

/-- Sample speech response whose only part has no inline data. -/
def audRespNoneW : NarrResponse := { parts := [{ inlineData := none }] }

theorem media_data_urls_witness :
    extractImage imgRespNoneW = none ∧ extractAudio audRespNoneW = none :=
  ⟨(media_data_urls imgRespNoneW audRespNoneW).2.1 (by decide),
   (media_data_urls imgRespNoneW audRespNoneW).2.2.2.2.1 (by decide)⟩

/-- C7: the only retry logic lives in generateIllustration.  generateStory and
generateNarration each make exactly one call to the generative API and settle a
failure of that call immediately as the same error, with no second call. -/
theorem story_narration_single_call
    (attempt1 : Nat → Except GenError StoryResponse)
    (attempt2 : Nat → Except GenError NarrResponse) :
    (generateStory attempt1).calls = 1
    ∧ (generateNarration attempt2).calls = 1
    ∧ (∀ e, attempt1 0 = Except.error e →
        (generateStory attempt1).result = Except.error e)
    ∧ (∀ e, attempt2 0 = Except.error e →
        (generateNarration attempt2).result = Except.error e) := by
  refine ⟨?_, ?_, ?_, ?_⟩
  · unfold generateStory
    cases attempt1 0 <;> rfl
  · unfold generateNarration
    cases attempt2 0 <;> rfl
  · intro e h
    simp [generateStory, h]
  · intro e h
    simp [generateNarration, h]

/-- Sample failing story attempt stream. -/
def storyAttemptW : Nat → Except GenError StoryResponse := fun _ => Except.error illErr500

/-- Sample failing narration attempt stream. -/
def narrAttemptW : Nat → Except GenError NarrResponse := fun _ => Except.error illErr500

theorem story_narration_single_call_witness :
    (generateStory storyAttemptW).result = Except.error illErr500
    ∧ (generateNarration narrAttemptW).result = Except.error illErr500 :=
  ⟨(story_narration_single_call storyAttemptW narrAttemptW).2.2.1 illErr500 rfl,
   (story_narration_single_call storyAttemptW narrAttemptW).2.2.2 illErr500 rfl⟩

/-- C4: updatePage modifies only the matched page of the current book.  With a
null currentBook the state is returned unchanged.  Otherwise user, myBooks,
brandSettings, isLoading and error are untouched, every field of currentBook
other than pages is untouched, and pointwise over the pages array the page
whose id equals pageId receives the field updates while every other page is
unchanged. -/
theorem updatePage_frame (s : StoryState) (pageId : String) (u : PageUpdate) :
    (s.currentBook = none → updatePage pageId u s = s)
    ∧ (updatePage pageId u s).user = s.user
    ∧ (updatePage pageId u s).myBooks = s.myBooks
    ∧ (updatePage pageId u s).brandSettings = s.brandSettings
    ∧ (updatePage pageId u s).isLoading = s.isLoading
    ∧ (updatePage pageId u s).error = s.error
    ∧ (updatePage pageId u s).currentBook.map Book.id = s.currentBook.map Book.id
    ∧ (updatePage pageId u s).currentBook.map Book.title = s.currentBook.map Book.title
    ∧ (updatePage pageId u s).currentBook.map Book.theme = s.currentBook.map Book.theme
    ∧ (updatePage pageId u s).currentBook.map Book.targetAge
        = s.currentBook.map Book.targetAge
    ∧ (updatePage pageId u s).currentBook.map Book.moral = s.currentBook.map Book.moral
    ∧ (updatePage pageId u s).currentBook.map Book.coverUrl
        = s.currentBook.map Book.coverUrl
    ∧ (updatePage pageId u s).currentBook.map Book.coverPrompt
        = s.currentBook.map Book.coverPrompt
    ∧ (updatePage pageId u s).currentBook.map Book.characterDescription
        = s.currentBook.map Book.characterDescription
    ∧ (∀ i : Nat, (updatePage pageId u s).currentBook.map (fun b => b.pages[i]?)
        = s.currentBook.map
            (fun b => (b.pages[i]?).map
              (fun p => if p.id = pageId then applyUpdate p u else p))) := by
  cases hb : s.currentBook with
  | none =>
    refine ⟨fun _ => (by simp [updatePage, hb]), ?_⟩
    simp [updatePage, hb]
  | some book =>
    refine ⟨fun hc => (by cases hc), ?_⟩
    simp [updatePage, hb, List.getElem?_map]

/-- Sample store state without a current book. -/
def stateNoneW : StoryState :=
  { user := none
    brandSettings := { name := "Kisah Ai", tagline := "by Erna", logoUrl := "" }
    currentBook := none, myBooks := [], isLoading := false, error := none }

/-- Update record with no field present. -/
def emptyPageUpdate : PageUpdate :=
  { id := none, pageNumber := none, content := none, illustrationUrl := none
    illustrationPrompt := none, narrationUrl := none }

theorem updatePage_frame_witness :
    updatePage "p1" emptyPageUpdate stateNoneW = stateNoneW :=
  (updatePage_frame stateNoneW "p1" emptyPageUpdate).1 rfl

/-- C5: the wizard collects exactly theme, characterName, age, moral, language
and pages, and handleGenerate forwards all six to generateStory unchanged: the
submitted record equals the form state field by field. -/
theorem wizard_forwards_params (f : WizardFormData) :
    (handleGenerateParams f).theme = f.theme
    ∧ (handleGenerateParams f).characterName = f.characterName
    ∧ (handleGenerateParams f).age = f.age
    ∧ (handleGenerateParams f).moral = f.moral
    ∧ (handleGenerateParams f).language = f.language
    ∧ (handleGenerateParams f).pages = f.pages :=
  ⟨rfl, rfl, rfl, rfl, rfl, rfl⟩

theorem wizardFormInv_step (f : WizardFormData) (e : WizardEvent)
    (hf : 5 ≤ f.pages ∧ f.pages ≤ 15) (he : eventInRange e = true) :
    5 ≤ (applyEvent f e).pages ∧ (applyEvent f e).pages ≤ 15 := by
  cases e with
  | setPages n =>
    simp only [eventInRange, Bool.and_eq_true, decide_eq_true_eq] at he
    simpa [applyEvent] using he
  | setTheme s => simpa [applyEvent] using hf
  | setCharacterName s => simpa [applyEvent] using hf
  | setAge s => simpa [applyEvent] using hf
  | setMoral s => simpa [applyEvent] using hf
  | setLanguage s => simpa [applyEvent] using hf

theorem wizardFormInv_foldl (events : List WizardEvent) :
    ∀ f : WizardFormData, 5 ≤ f.pages ∧ f.pages ≤ 15 →
      (∀ e ∈ events, eventInRange e = true) →
      5 ≤ (events.foldl applyEvent f).pages ∧ (events.foldl applyEvent f).pages ≤ 15 := by
  induction events with
  | nil => intro f hf _; simpa using hf
  | cons e es ih =>
    intro f hf hok
    simp only [List.foldl_cons]
    exact ih (applyEvent f e)
      (wizardFormInv_step f e hf (hok e (by simp)))
      (fun d hd => hok d (by simp [hd]))

/-- C9: implicit invariant of the wizard page count.  The form starts at 8
pages and the only event that touches pages is the range input, which reports
values between its min 5 and max 15; therefore after any event sequence the
page count sent to generateStory stays between 5 and 15 inclusive. -/
theorem wizard_pages_in_range (events : List WizardEvent)
    (h : ∀ e ∈ events, eventInRange e = true) :
    5 ≤ (events.foldl applyEvent initialFormData).pages
    ∧ (events.foldl applyEvent initialFormData).pages ≤ 15 :=
  wizardFormInv_foldl events initialFormData (by decide) h

theorem wizard_pages_in_range_witness :
    5 ≤ (([WizardEvent.setPages 15, WizardEvent.setTheme "dragon"].foldl
        applyEvent initialFormData)).pages
    ∧ (([WizardEvent.setPages 15, WizardEvent.setTheme "dragon"].foldl
        applyEvent initialFormData)).pages ≤ 15 :=
  wizard_pages_in_range [WizardEvent.setPages 15, WizardEvent.setTheme "dragon"]
    (by decide)

theorem addImage_append_last (img : String) (xs : List (List String)) (l : List String) :
    addImage img (xs ++ [l]) = xs ++ [l ++ [img]] := by
  induction xs with
  | nil => rfl
  | cons x xs ih =>
    cases xs with
    | nil => rfl
    | cons y ys =>
      show addImage img (x :: ((y :: ys) ++ [l])) = x :: ((y :: ys) ++ [l ++ [img]])
      rw [← ih]
      rfl

theorem addStoryPages_eq (render : String → String) (ps : List Page) :
    ∀ (doc : PdfDoc) (i : Nat),
      addStoryPages render doc i ps
        = doc ++ ps.mapIdx (fun t p => [render (pageHtml p (i + t))]) := by
  induction ps with
  | nil => intro doc i; simp [addStoryPages]
  | cons p ps ih =>
    intro doc i
    simp only [addStoryPages, addPage]
    rw [addImage_append_last, ih, List.append_assoc]
    simp only [List.mapIdx_cons, Nat.add_zero, List.singleton_append]
    have hfun : (fun t (q : Page) => [render (pageHtml q (i + 1 + t))])
        = (fun t (q : Page) => [render (pageHtml q (i + (t + 1)))]) := by
      funext t q
      have harith : i + 1 + t = i + (t + 1) := by omega
      rw [harith]
    rw [hfun]
    simp

/-- C3: for a book with N story pages, exportToPDF produces a document with
exactly N + 1 pages.  The first pdf page holds the rendered cover, whose markup
carries the title and, when a cover image url is present and non-empty, its img
tag; then, in the order of the pages array, exactly one pdf page is appended
per story page, holding the rendered page markup, which carries the content
text of that page and its illustration img tag or the grey placeholder. -/
theorem exportToPDF_pages (render : String → String) (b : Book) :
    exportToPDF render b
      = [render (coverHtml b)] :: b.pages.mapIdx (fun i p => [render (pageHtml p i)])
    ∧ (exportToPDF render b).length = b.pages.length + 1
    ∧ substrOf b.title (coverHtml b)
    ∧ (∀ u, b.coverUrl = some u → u.isEmpty = false →
        substrOf (coverImgTag u) (coverHtml b))
    ∧ (∀ i p, b.pages[i]? = some p →
        substrOf p.content (pageHtml p i)
        ∧ substrOf (pageIllustrationHtml p) (pageHtml p i)) := by
  have hmain : exportToPDF render b
      = [render (coverHtml b)] :: b.pages.mapIdx (fun i p => [render (pageHtml p i)]) := by
    unfold exportToPDF newPdf
    rw [show addImage (render (coverHtml b)) [[]] = [[render (coverHtml b)]] from rfl]
    rw [addStoryPages_eq]
    simp
  refine ⟨hmain, ?_, ?_, ?_, ?_⟩
  · rw [hmain]
    simp
  · exact ⟨(coverHead ++ coverImgPart b ++ coverMid1).data,
      (coverMid2 ++ b.targetAge ++ coverTail).data,
      by simp [coverHtml, List.append_assoc]⟩
  · intro u hu hne
    refine ⟨coverHead.data,
      (coverMid1 ++ b.title ++ coverMid2 ++ b.targetAge ++ coverTail).data, ?_⟩
    simp [coverHtml, coverImgPart, hu, hne, List.append_assoc]
  · intro i p _
    constructor
    · exact ⟨(pageHead ++ pageIllustrationHtml p ++ pageMid1 ++ toString (i + 1)
          ++ pageMid2).data, pageTail.data,
        by simp [pageHtml, List.append_assoc]⟩
    · exact ⟨pageHead.data,
        (pageMid1 ++ toString (i + 1) ++ pageMid2 ++ p.content ++ pageTail).data,
        by simp [pageHtml, List.append_assoc]⟩

/-- Sample story page for the export witness. -/
def pdfPageW : Page :=
  { id := "pg1", pageNumber := 1, content := "Once upon a time"
    illustrationUrl := none, illustrationPrompt := "a small dragon"
    narrationUrl := none }

/-- Sample one-page book for the export witness. -/
def pdfBookW : Book :=
  { id := "b1", title := "Luna", theme := "space", targetAge := "3-5"
    moral := "kindness", coverUrl := none, coverPrompt := "cover"
    characterDescription := "small dragon", pages := [pdfPageW] }

theorem exportToPDF_pages_witness :
    (exportToPDF id pdfBookW).length = pdfBookW.pages.length + 1
    ∧ substrOf pdfPageW.content (pageHtml pdfPageW 0) :=
  ⟨(exportToPDF_pages id pdfBookW).2.1,
   ((exportToPDF_pages id pdfBookW).2.2.2.2 0 pdfPageW rfl).1⟩

/-- C8: GET /api/books/:bookId/pages returns exactly the stored pages whose
bookId matches, in ascending pageNumber order, and GET /api/books/:userId
returns exactly the stored books of that user, in descending createdAt order:
each response is a permutation of the matching rows and is sorted by the ORDER
BY comparison. -/
theorem api_queries_filter_sort (dbPages : List PageRow) (dbBooks : List BookRow)
    (bookId userId : String) :
    (getBookPages dbPages bookId).Perm
        (dbPages.filter (fun p => p.bookId == bookId))
    ∧ (getBookPages dbPages bookId).Pairwise
        (fun a b => a.pageNumber ≤ b.pageNumber)
    ∧ (getUserBooks dbBooks userId).Perm
        (dbBooks.filter (fun b => b.userId == userId))
    ∧ (getUserBooks dbBooks userId).Pairwise
        (fun a b => b.createdAt ≤ a.createdAt) := by
  refine ⟨?_, ?_, ?_, ?_⟩
  · exact List.mergeSort_perm _ _
  · have hs := @List.sorted_mergeSort PageRow
      (fun a b : PageRow => decide (a.pageNumber ≤ b.pageNumber))
      (fun a b c hab hbc => by
        simp only [decide_eq_true_eq] at *
        omega)
      (fun a b => by
        simp only [Bool.or_eq_true, decide_eq_true_eq]
        omega)
      (dbPages.filter (fun p => p.bookId == bookId))
    exact hs.imp (fun h => by simpa using h)
  · exact List.mergeSort_perm _ _
  · have hs := @List.sorted_mergeSort BookRow
      (fun a b : BookRow => decide (b.createdAt ≤ a.createdAt))
      (fun a b c hab hbc => by
        simp only [decide_eq_true_eq] at *
        omega)
      (fun a b => by
        simp only [Bool.or_eq_true, decide_eq_true_eq]
        omega)
      (dbBooks.filter (fun b => b.userId == userId))
    exact hs.imp (fun h => by simpa using h)

theorem insertOrIgnoreUser_conflict (db : List UserRow) (id : String)
    (email name : Option String) (h : userConflict db id email = true) :
    insertOrIgnoreUser db id email name = db := by
  simp [insertOrIgnoreUser, h]

theorem userConflict_after_insert (db : List UserRow) (id : String)
    (email name : Option String) :
    userConflict (insertOrIgnoreUser db id email name) id email = true := by
  by_cases h : userConflict db id email = true
  · rw [insertOrIgnoreUser_conflict db id email name h]
    exact h
  · unfold insertOrIgnoreUser
    rw [if_neg h]
    unfold userConflict
    simp

/-- C10: POST /api/users is idempotent.  The INSERT OR IGNORE leaves the table
unchanged when a row with the given id (or a conflicting unique email) already
exists, the response is always the result of looking the id up in the stored
table, and repeating the same request leaves the table and the response
unchanged. -/
theorem post_users_idempotent (db : List UserRow) (id : String)
    (email name : Option String) :
    ((postUsers (postUsers db id email name).1 id email name).1
        = (postUsers db id email name).1)
    ∧ ((postUsers (postUsers db id email name).1 id email name).2
        = (postUsers db id email name).2)
    ∧ (postUsers db id email name).2
        = (postUsers db id email name).1.find? (fun u => u.id == id)
    ∧ (db.any (fun u => u.id == id) = true → (postUsers db id email name).1 = db) := by
  have htab : (postUsers (postUsers db id email name).1 id email name).1
      = (postUsers db id email name).1 := by
    show insertOrIgnoreUser (insertOrIgnoreUser db id email name) id email name
      = insertOrIgnoreUser db id email name
    exact insertOrIgnoreUser_conflict _ id email name
      (userConflict_after_insert db id email name)
  refine ⟨htab, ?_, rfl, ?_⟩
  · show (postUsers (postUsers db id email name).1 id email name).1.find?
        (fun u => u.id == id)
      = (postUsers db id email name).1.find? (fun u => u.id == id)
    rw [htab]
  · intro h
    show insertOrIgnoreUser db id email name = db
    exact insertOrIgnoreUser_conflict db id email name (by
      unfold userConflict
      rw [h]
      rfl)

/-- Sample users table holding the row with id u1. -/
def usersTableW : List UserRow :=
  [{ id := "u1", email := some "a@b.c", name := some "Ana", credits := 10 }]

theorem post_users_idempotent_witness :
    (postUsers usersTableW "u1" (some "a@b.c") (some "Ana")).1 = usersTableW :=
  (post_users_idempotent usersTableW "u1" (some "a@b.c") (some "Ana")).2.2.2 (by decide)

end StoryGen
